import Mathlib

/-!
Verification of the addons-path resolver of the `odoo-addons-path` repository.

The source (src/odoo_addons_path/main.py and detector.py) is embedded
shallowly: the filesystem is a finite set of directory paths and of files
(with optional readable content), a path is its list of segments from the
filesystem root, and every Python operation used by the code is translated
to a total Lean function over that model.  Python exceptions
(FileNotFoundError from `iterdir` on a missing directory, PermissionError
from `open`, `typer.Exit(1)`) are modelled with `Except String`.
Canonicalization (`Path.resolve`) is the identity in this model: every path
is already absolute and symlink-free, so `str(p.resolve())` is just the
rendered path string.  Iteration order of `iterdir` and of `glob` (which in
Python is OS-dependent) is the listing order of the model; the source sorts
whatever this order must not influence.
-/

/-- A path segment (one component of a POSIX path). -/
abbrev Seg := String

/-- An absolute path, as its list of segments below the filesystem root. -/
abbrev FPath := List Seg

/-- A filesystem: the set of existing directories and the set of existing
files. A file's `Option String` content is `none` when the file exists but
is not readable (reading it raises PermissionError), `some c` when reading
it yields `c`. -/
structure FS where
  dirs : List FPath
  files : List (FPath × Option String)

/-- `Path.is_dir()`. -/
def isDir (fs : FS) (p : FPath) : Bool := decide (p ∈ fs.dirs)

/-- `Path.is_file()` (an unreadable file still exists). -/
def isFile (fs : FS) (p : FPath) : Bool := decide (p ∈ fs.files.map Prod.fst)

/-- `open(p); f.read()`: FileNotFoundError when missing, PermissionError
when present but unreadable. -/
def readFile (fs : FS) (p : FPath) : Except String String :=
  match fs.files.find? (fun e => decide (e.1 = p)) with
  | none => Except.error "FileNotFoundError"
  | some (_, none) => Except.error "PermissionError"
  | some (_, some c) => Except.ok c

/-- The immediate subdirectories of `p`, in listing order (the directory
entries of `p.iterdir()` that satisfy `is_dir()`). -/
def childDirs (fs : FS) (p : FPath) : List FPath :=
  fs.dirs.filter (fun d => decide (d.length = p.length + 1 ∧ d.take p.length = p))

/-- `[item for item in p.iterdir() if item.is_dir()]`: raises
FileNotFoundError when `p` does not exist (consuming the generator raises). -/
def iterdirDirs (fs : FS) (p : FPath) : Except String (List FPath) :=
  if isDir fs p then Except.ok (childDirs fs p) else Except.error "FileNotFoundError"

/-- `p.parent`. -/
def parentDir (p : FPath) : FPath := p.dropLast

/-- `p.name` (the final path component). -/
def baseName (p : FPath) : Seg := p.getLast?.getD ""

/-- `str(p)` for an absolute path (also `str(p.resolve())`: resolution is
the identity in this symlink-free model of absolute paths). -/
def render (p : FPath) : String := p.foldl (fun acc s => acc ++ "/" ++ s) ""

/-- `p.glob("**/__manifest__.py")`: every file strictly below `p` whose
final component is the manifest marker (`**` matches zero or more
directories, so a manifest directly inside `p` matches too). -/
def manifestsUnder (fs : FS) (p : FPath) : List FPath :=
  (fs.files.map Prod.fst).filter
    (fun f => decide (f.getLast? = some "__manifest__.py" ∧ p.length < f.length ∧ f.take p.length = p))

/-- Lexicographic comparison of paths by components, matching Python's
`PurePath` ordering (tuple comparison of parts, code-point string order). -/
def cmpPath : FPath → FPath → Ordering
  | [], [] => Ordering.eq
  | [], _ :: _ => Ordering.lt
  | _ :: _, [] => Ordering.gt
  | a :: as, b :: bs =>
    match compare a b with
    | Ordering.eq => cmpPath as bs
    | o => o

/-- `a <= b` for paths, used by `sorted(manifests)`. -/
def pathLe (a b : FPath) : Bool := decide (cmpPath a b ≠ Ordering.gt)

/-- `a.name <= b.name`, the key order of `sorted(dirs, key=lambda p: p.name)`. -/
def nameLe (a b : FPath) : Bool := decide (compare (baseName a) (baseName b) ≠ Ordering.gt)

/-- Insert `a` after every element `b` with `b <= a` (stable insertion). -/
def insertLe {α : Type} (le : α → α → Bool) (a : α) : List α → List α
  | [] => [a]
  | b :: bs => if le b a then b :: insertLe le a bs else a :: b :: bs

/-- Python's stable `sorted` under the total preorder `le`: left-to-right
insertion, each element placed after its equals. -/
def sortBy {α : Type} (le : α → α → Bool) (l : List α) : List α :=
  l.foldl (fun acc a => insertLe le a acc) []

/-- One step of `_add_to_path`'s loop: append `str(d.resolve())` when `d`
is a directory and the string is not already present. -/
def addStep (fs : FS) (acc : List String) (d : FPath) : List String :=
  if isDir fs d then
    if render d ∈ acc then acc else acc ++ [render d]
  else acc

/-- `_add_to_path(path_list, dirs_to_add, is_sorted)` (main.py): optionally
sort by base name, keep only existing directories, deduplicate against the
accumulating list, append in order. -/
def addToPath (fs : FS) (pathList : List String) (dirsToAdd : List FPath) (isSorted : Bool) : List String :=
  (if isSorted then sortBy nameLe dirsToAdd else dirsToAdd).foldl (addStep fs) pathList

/-- The dict a detector returns (`addons_dirs`, `addons_dir`, `odoo_dir`);
a missing key is the empty list, matching `detected_paths.get(k, [])`. -/
structure Detected where
  addons_dirs : List FPath := []
  addons_dir : List FPath := []
  odoo_dir : List FPath := []

/-- A successful detection: the detector's name and its path dict. -/
abbrev DetectResult := Option (String × Detected)

/-- A detector in chain-of-responsibility style: `next` is the
`super().detect(codebase)` continuation to the next detector. -/
abbrev Detector := (FS → FPath → Except String DetectResult) → FS → FPath → Except String DetectResult

/-- The end of the chain (`CodeBaseDetector.detect` with no next detector):
returns `None`. -/
def baseNext : FS → FPath → Except String DetectResult := fun _ _ => Except.ok none

/-- `TrobzDetector.detect`: fingerprint is a `.trobz` directory at the
root.  Note that `(codebase / "addons").iterdir()` is called without an
existence check, so a missing `addons` directory raises. -/
def trobzDetect (next : FS → FPath → Except String DetectResult) (fs : FS) (cb : FPath) :
    Except String DetectResult :=
  if isDir fs (cb ++ [".trobz"]) then
    match iterdirDirs fs (cb ++ ["addons"]) with
    | Except.error e => Except.error e
    | Except.ok items =>
      Except.ok (some ("Trobz",
        { addons_dirs := items,
          addons_dir := [cb ++ ["project"]],
          odoo_dir := [cb ++ ["odoo", "addons"], cb ++ ["odoo", "odoo", "addons"]] }))
  else next fs cb

/-- `pat` matches at the head of `hay`. -/
def charsMatch : List Char → List Char → Bool
  | [], _ => true
  | _ :: _, [] => false
  | a :: as, b :: bs => a == b && charsMatch as bs

/-- `pat` occurs somewhere inside `hay`. -/
def charsFind (pat : List Char) : List Char → Bool
  | [] => pat.isEmpty
  | c :: rest => charsMatch pat (c :: rest) || charsFind pat rest

/-- Number of positions of `hay` where `pat` matches. -/
def charsOccur (pat : List Char) : List Char → Nat
  | [] => 0
  | c :: rest => (if charsMatch pat (c :: rest) then 1 else 0) + charsOccur pat rest

/-- Python's substring test `pat in s`. -/
def strContains (s pat : String) : Bool := charsFind pat.data s.data

/-- Python's `s.count(pat)` for the patterns used here (the manifest file
name has no self-overlap, so overlapping and non-overlapping counts agree). -/
def strOccur (s pat : String) : Nat := charsOccur pat.data s.data

/-- Modelled from the spec: structured-config (YAML) parsing is an external
collaborator ("given a file path, returns a decoded key-value mapping or
signals not decodable; the core only consumes the mapping's fields").  The
library `yaml.safe_load` is not part of this repository, so we model only
what the Doodba detector consumes: a content of the shape
`_src_path: VALUE` decodes to a mapping whose source-template field is
`VALUE`; any other content fails to decode (`yaml.YAMLError`). -/
def yamlSrcPath (content : String) : Except Unit String :=
  if charsMatch "_src_path: ".data content.data then
    Except.ok (String.mk (content.data.drop 11))
  else Except.error ()

/-- `DoodbaDetector.detect`: fingerprint is a `.copier-answers.yml` file
whose decoded `_src_path` contains `"doodba"`.  The `open()` call sits
outside the `try`, which only catches `yaml.YAMLError`: a missing file is
guarded by `is_file()`, but a read failure on an existing file propagates. -/
def doodbaDetect (next : FS → FPath → Except String DetectResult) (fs : FS) (cb : FPath) :
    Except String DetectResult :=
  if isFile fs (cb ++ [".copier-answers.yml"]) then
    match readFile fs (cb ++ [".copier-answers.yml"]) with
    | Except.error e => Except.error e
    | Except.ok content =>
      match yamlSrcPath content with
      | Except.error _ => next fs cb
      | Except.ok srcPath =>
        if strContains srcPath "doodba" then
          if isDir fs (cb ++ ["odoo", "custom", "src"]) then
            Except.ok (some ("Doodba",
              { addons_dirs := (childDirs fs (cb ++ ["odoo", "custom", "src"])).filter
                  (fun i => decide (baseName i ≠ "odoo" ∧ baseName i ≠ "private")),
                addons_dir := [cb ++ ["odoo", "custom", "src", "private"]],
                odoo_dir := [cb ++ ["odoo", "custom", "src", "odoo", "addons"],
                             cb ++ ["odoo", "custom", "src", "odoo", "odoo", "addons"]] }))
          else next fs cb
        else next fs cb
  else next fs cb

/-- `C2CDetector._find_docker_file`: first of `odoo/Dockerfile`,
`Dockerfile` that is a file. -/
def findDockerFile (fs : FS) (cb : FPath) : Option FPath :=
  if isFile fs (cb ++ ["odoo", "Dockerfile"]) then some (cb ++ ["odoo", "Dockerfile"])
  else if isFile fs (cb ++ ["Dockerfile"]) then some (cb ++ ["Dockerfile"])
  else none

/-- An ASCII apostrophe (used inside the C2C maintainer label). -/
def squote : Char := Char.ofNat 39

/-- The single-quoted maintainer label the C2C detector searches for. -/
def c2cMarkerSingle : String :=
  "LABEL maintainer=" ++ squote.toString ++ "Camptocamp" ++ squote.toString

/-- The double-quoted maintainer label the C2C detector searches for. -/
def c2cMarkerDouble : String := "LABEL maintainer=\"Camptocamp\""

/-- `C2CDetector._is_c2c_dockerfile`: read the file and test the two
maintainer markers; any read failure (FileNotFoundError, PermissionError,
OSError) is caught and yields `False`. -/
def isC2cDockerfile (fs : FS) (df : FPath) : Bool :=
  match readFile fs df with
  | Except.ok content => strContains content c2cMarkerSingle || strContains content c2cMarkerDouble
  | Except.error _ => false

/-- `C2CDetector._collect_external_src_dirs`. -/
def collectExternalSrcDirs (fs : FS) (cb : FPath) : List FPath :=
  if isDir fs (cb ++ ["odoo", "external-src"]) then childDirs fs (cb ++ ["odoo", "external-src"])
  else []

/-- `C2CDetector._get_legacy_config`. -/
def c2cLegacyConfig (cb : FPath) (addonsDirs : List FPath) : Detected :=
  { addons_dirs := addonsDirs,
    addons_dir := [cb ++ ["odoo", "local-src"]],
    odoo_dir := [cb ++ ["odoo", "src", "addons"], cb ++ ["odoo", "src", "odoo", "addons"]] }

/-- `C2CDetector._get_new_config`: `dev-src` and `paid-modules` only when
present; `odoo/addons` only when present. -/
def c2cNewConfig (fs : FS) (cb : FPath) (addonsDirs : List FPath) : Detected :=
  { addons_dirs := addonsDirs,
    addons_dir := (["dev-src", "paid-modules"].map (fun n => cb ++ ["odoo", n])).filter (isDir fs),
    odoo_dir := if isDir fs (cb ++ ["odoo", "addons"]) then [cb ++ ["odoo", "addons"]] else [] }

/-- `C2CDetector.detect`: fingerprint is a maintainer-labeled Dockerfile;
branches on the legacy `odoo/src` directory. -/
def c2cDetect (next : FS → FPath → Except String DetectResult) (fs : FS) (cb : FPath) :
    Except String DetectResult :=
  match findDockerFile fs cb with
  | none => next fs cb
  | some df =>
    if isC2cDockerfile fs df then
      if isDir fs (cb ++ ["odoo", "src"]) then
        Except.ok (some ("Camptocamp (Legacy)", c2cLegacyConfig cb (collectExternalSrcDirs fs cb)))
      else
        Except.ok (some ("Camptocamp", c2cNewConfig fs cb (collectExternalSrcDirs fs cb)))
    else next fs cb

/-- `OdooShDetector.detect`: fingerprint is the four top-level directories
`enterprise`, `odoo`, `themes`, `user` all existing. -/
def odooShDetect (next : FS → FPath → Except String DetectResult) (fs : FS) (cb : FPath) :
    Except String DetectResult :=
  if isDir fs (cb ++ ["enterprise"]) && isDir fs (cb ++ ["odoo"]) &&
      isDir fs (cb ++ ["themes"]) && isDir fs (cb ++ ["user"]) then
    Except.ok (some ("odoo.sh",
      { addons_dirs := [cb ++ ["enterprise"], cb ++ ["themes"]] ++ childDirs fs (cb ++ ["user"]),
        addons_dir := [cb ++ ["project"]],
        odoo_dir := [cb ++ ["odoo", "addons"], cb ++ ["odoo", "odoo", "addons"]] }))
  else next fs cb

/-- `list(set(...))` modelled as first-occurrence deduplication (the
source's set order is unspecified; this fixes the model's order). -/
def dedupKeepFirst (l : List FPath) : List FPath :=
  l.foldl (fun acc p => if p ∈ acc then acc else acc ++ [p]) []

/-- `GenericDetector.detect`: keep every manifest whose path has no
`setup` component and whose rendered path contains the manifest file name
only once; succeed when any remain, emitting the distinct
parent-of-parent directories. -/
def genericDetect (next : FS → FPath → Except String DetectResult) (fs : FS) (cb : FPath) :
    Except String DetectResult :=
  let manifestFiles := (manifestsUnder fs cb).filter
    (fun f => decide (("setup" ∈ f) = False) && decide (strOccur (render f) "__manifest__.py" ≤ 1))
  if manifestFiles.isEmpty then next fs cb
  else
    Except.ok (some ("fallback",
      { addons_dirs := dedupKeepFirst (manifestFiles.map (fun f => parentDir (parentDir f))) }))

/-- The chain built by `_detect_codebase_layout`:
`trobz.set_next(c2c).set_next(odoo_sh).set_next(doodba).set_next(fallback)`. -/
def detectChain (fs : FS) (cb : FPath) : Except String DetectResult :=
  trobzDetect (c2cDetect (odooShDetect (doodbaDetect (genericDetect baseNext)))) fs cb

/-- The same five source detectors chained in the priority order the spec
prescribes (A marker directory, B generator-answers file, C
maintainer-labeled container file, D four fixed directories, fallback).
Modelled from the spec for comparison with the source's `detectChain`. -/
def detectSpecOrder (fs : FS) (cb : FPath) : Except String DetectResult :=
  trobzDetect (doodbaDetect (c2cDetect (odooShDetect (genericDetect baseNext)))) fs cb

/-- `_detect_codebase_layout` (main.py): run the chain; when it returns
`None`, print an error and `raise typer.Exit(1)` — modelled as the error
string `Exit(1)`. -/
def detectCodebaseLayout (fs : FS) (cb : FPath) : Except String Detected :=
  match detectChain fs cb with
  | Except.error e => Except.error e
  | Except.ok none => Except.error "Exit(1)"
  | Except.ok (some (_, d)) => Except.ok d

/-- One step of the manifest loop in `_process_paths`: record the
manifest's parent-of-parent unless already recorded. -/
def repoStep (res : List FPath) (m : FPath) : List FPath :=
  if parentDir (parentDir m) ∈ res then res else res ++ [parentDir (parentDir m)]

/-- One step of the outer loop of `_process_paths`: skip a non-directory,
otherwise scan its sorted manifests. -/
def collectStep (fs : FS) (res : List FPath) (p : FPath) : List FPath :=
  if isDir fs p then (sortBy pathLe (manifestsUnder fs p)).foldl repoStep res else res

/-- The `result` list of `_process_paths`: repositories discovered under
each processed path, in discovery order, deduplicated. -/
def collectRepos (fs : FS) (paths : List FPath) : List FPath :=
  paths.foldl (collectStep fs) []

/-- `_process_paths` (main.py), returning the two category lists
(`all_paths["odoo_dir"]`, `all_paths["addon_repositories"]`). -/
def processPaths (fs : FS) (detected : Detected) (addonsDir : List FPath) (odooDir : Option FPath) :
    List String × List String :=
  let odooList :=
    match odooDir with
    | some d => addToPath fs [] [d ++ ["addons"], d ++ ["odoo", "addons"]] false
    | none => []
  let odooList :=
    if detected.odoo_dir.isEmpty then odooList
    else addToPath fs odooList detected.odoo_dir false
  let result := collectRepos fs (addonsDir ++ detected.addons_dirs ++ detected.addons_dir)
  let repoList := addToPath fs [] result addonsDir.isEmpty
  (odooList, repoList)

/-- `get_addons_path` up to the final join: detection runs only when no
`addons_dir` override was supplied; its `typer.Exit(1)` (or a detector
exception) propagates. -/
def getAddonsPathLists (fs : FS) (cb : FPath) (addonsDir : List FPath) (odooDir : Option FPath) :
    Except String (List String × List String) :=
  if addonsDir.isEmpty then
    match detectCodebaseLayout fs cb with
    | Except.error e => Except.error e
    | Except.ok d => Except.ok (processPaths fs d addonsDir odooDir)
  else Except.ok (processPaths fs {} addonsDir odooDir)

/-- `get_addons_path` (main.py): the category lists flattened in fixed
order (core framework first, then addon repositories) and comma-joined. -/
def getAddonsPath (fs : FS) (cb : FPath) (addonsDir : List FPath) (odooDir : Option FPath) :
    Except String String :=
  match getAddonsPathLists fs cb addonsDir odooDir with
  | Except.error e => Except.error e
  | Except.ok (a, b) => Except.ok (String.intercalate "," (a ++ b))

/-- The continuation-independent shape of a chain detector: run `next`
exactly when the detector alone (with an empty continuation) declines. -/
def peel (r : Except String DetectResult) (next : FS → FPath → Except String DetectResult)
    (fs : FS) (cb : FPath) : Except String DetectResult :=
  match r with
  | Except.ok none => next fs cb
  | r => r

/-- First-match iteration of standalone detectors in list order: the first
detector that answers (or fails) decides; `none` when all decline. -/
def runDetectors : List Detector → FS → FPath → Except String DetectResult
  | [], _, _ => Except.ok none
  | d :: ds, fs, cb =>
    match d baseNext fs cb with
    | Except.ok none => runDetectors ds fs cb
    | r => r

/-- The Trobz fixture tree of the spec's concrete scenario: `.trobz`
marker, `addons/custom-repo` holding one module, a `project` collection
holding one module, and both core addon directories. -/
def fsTrobz : FS :=
  ⟨[[], ["r"], ["r", ".trobz"], ["r", "addons"], ["r", "addons", "custom-repo"],
    ["r", "addons", "custom-repo", "module_a"], ["r", "project"], ["r", "project", "module_b"],
    ["r", "odoo"], ["r", "odoo", "addons"], ["r", "odoo", "odoo"], ["r", "odoo", "odoo", "addons"]],
   [(["r", "addons", "custom-repo", "module_a", "__manifest__.py"], some ""),
    (["r", "project", "module_b", "__manifest__.py"], some "")]⟩

/-- A root whose fingerprints satisfy the Doodba convention (answers file
decoding to a doodba source template, with `odoo/custom/src` present) and
the Camptocamp convention (maintainer-labeled `Dockerfile`) at once. -/
def fsBothB_C : FS :=
  ⟨[[], ["r"], ["r", "odoo"], ["r", "odoo", "custom"], ["r", "odoo", "custom", "src"],
    ["r", "odoo", "custom", "src", "repo1"]],
   [(["r", ".copier-answers.yml"], some "_src_path: gh:Tecnativa/doodba-copier-template"),
    (["r", "Dockerfile"], some "LABEL maintainer=\"Camptocamp\"")]⟩

/-- The Trobz fixture with its (non-essential) `addons` folder removed. -/
def fsTrobzNoAddons : FS :=
  ⟨[[], ["r"], ["r", ".trobz"], ["r", "project"], ["r", "odoo"], ["r", "odoo", "addons"],
    ["r", "odoo", "odoo"], ["r", "odoo", "odoo", "addons"]], []⟩

/-- `fsTrobzNoAddons` with the `addons` folder present again (empty). -/
def fsTrobzEmptyAddons : FS := ⟨fsTrobzNoAddons.dirs ++ [["r", "addons"]], []⟩

/-- A root whose `.copier-answers.yml` exists but is unreadable. -/
def fsCopierUnreadable : FS := ⟨[[], ["r"]], [(["r", ".copier-answers.yml"], none)]⟩

/-- A root whose `Dockerfile` exists but is unreadable. -/
def fsDockerUnreadable : FS := ⟨[[], ["r"]], [(["r", "Dockerfile"], none)]⟩

/-- An empty codebase root: no convention fingerprints, no manifests. -/
def fsEmptyRoot : FS := ⟨[[], ["r"]], []⟩

/-- A tree where `/x` is both the odoo_dir override target (so `/x/addons`
enters the core category) and an addons_dir override entry whose module
`/x/addons/m` makes `/x/addons` a discovered repository. -/
def fsOverlap : FS :=
  ⟨[[], ["x"], ["x", "addons"], ["x", "addons", "m"]],
   [(["x", "addons", "m", "__manifest__.py"], some "")]⟩

/-- A Trobz tree (empty `addons`) plus a separate `/ext/addons` tree used
as the explicit core-framework override. -/
def fsTrobzPlusExt : FS :=
  ⟨[[], ["r"], ["r", ".trobz"], ["r", "addons"], ["r", "odoo"], ["r", "odoo", "addons"],
    ["r", "odoo", "odoo"], ["r", "odoo", "odoo", "addons"], ["ext"], ["ext", "addons"]], []⟩

/-- The detector output of `fsTrobzPlusExt` (what `TrobzDetector.detect`
returns there). -/
def detectedTrobzPlusExt : Detected :=
  { addons_dirs := [],
    addons_dir := [["r", "project"]],
    odoo_dir := [["r", "odoo", "addons"], ["r", "odoo", "odoo", "addons"]] }

/-- A collection directory `/a` whose only manifest lies inside a
reserved `setup` packaging subfolder (`/a/r/setup/mod/__manifest__.py`). -/
def fsSetupOnly : FS :=
  ⟨[[], ["a"], ["a", "r"], ["a", "r", "setup"], ["a", "r", "setup", "mod"]],
   [(["a", "r", "setup", "mod", "__manifest__.py"], some "")]⟩

/-- A supplied directory `/root/mod` that is itself a module root (it
directly contains the manifest marker). -/
def fsModuleRoot : FS :=
  ⟨[[], ["root"], ["root", "mod"]], [(["root", "mod", "__manifest__.py"], some "")]⟩

/-- A one-repository tree used to instantiate universally quantified
theorems: `/a` contains the single module `/a/m`. -/
def fsOneRepo : FS :=
  ⟨[[], ["a"], ["a", "m"]], [(["a", "m", "__manifest__.py"], some "")]⟩

lemma mem_insertLe {α : Type} (le : α → α → Bool) (a x : α) :
    ∀ l : List α, x ∈ insertLe le a l ↔ x = a ∨ x ∈ l := by
  intro l
  induction l with
  | nil => simp [insertLe]
  | cons b bs ih =>
    unfold insertLe
    by_cases h : le b a = true
    · rw [if_pos h]
      simp only [List.mem_cons, ih]
      try tauto
    · rw [if_neg h]
      simp only [List.mem_cons]
      try tauto

lemma mem_sortBy {α : Type} (le : α → α → Bool) (x : α) (l : List α) :
    x ∈ sortBy le l ↔ x ∈ l := by
  have aux : ∀ (l acc : List α), x ∈ l.foldl (fun acc a => insertLe le a acc) acc ↔
      x ∈ acc ∨ x ∈ l := by
    intro l
    induction l with
    | nil => simp
    | cons a as ih =>
      intro acc
      simp only [List.foldl_cons, ih, mem_insertLe, List.mem_cons]
      tauto
  unfold sortBy
  rw [aux]
  simp

lemma mem_addStep_left (fs : FS) (l : List String) (d : FPath) (x : String) (h : x ∈ l) :
    x ∈ addStep fs l d := by
  unfold addStep
  split
  · split
    · exact h
    · exact List.mem_append_left _ h
  · exact h

lemma mem_addStep_self (fs : FS) (l : List String) (d : FPath) (hdir : isDir fs d = true) :
    render d ∈ addStep fs l d := by
  unfold addStep
  rw [if_pos hdir]
  by_cases hin : render d ∈ l
  · rw [if_pos hin]; exact hin
  · rw [if_neg hin]; exact List.mem_append_right _ (List.mem_singleton.mpr rfl)

lemma mem_addFold_left (fs : FS) (x : String) :
    ∀ (ds : List FPath) (l : List String), x ∈ l → x ∈ ds.foldl (addStep fs) l := by
  intro ds
  induction ds with
  | nil => intro l h; simpa using h
  | cons d ds ih => intro l h; exact ih _ (mem_addStep_left fs l d x h)

lemma mem_addFold_of (fs : FS) (x : FPath) (hdir : isDir fs x = true) :
    ∀ (ds : List FPath) (l : List String), x ∈ ds → render x ∈ ds.foldl (addStep fs) l := by
  intro ds
  induction ds with
  | nil => intro l h; cases h
  | cons d ds ih =>
    intro l h
    rw [List.foldl_cons]
    rcases List.mem_cons.mp h with h1 | h2
    · subst h1
      exact mem_addFold_left fs _ ds _ (mem_addStep_self fs l x hdir)
    · exact ih _ h2

lemma mem_addToPath_of (fs : FS) (x : FPath) (hdir : isDir fs x = true)
    (l : List String) (ds : List FPath) (b : Bool) (h : x ∈ ds) :
    render x ∈ addToPath fs l ds b := by
  unfold addToPath
  split
  · exact mem_addFold_of fs x hdir _ l ((mem_sortBy nameLe x ds).mpr h)
  · exact mem_addFold_of fs x hdir _ l h

lemma mem_addToPath_left (fs : FS) (x : String) (l : List String) (ds : List FPath) (b : Bool)
    (h : x ∈ l) : x ∈ addToPath fs l ds b := by
  unfold addToPath
  split <;> exact mem_addFold_left fs x _ l h

lemma nodup_addStep (fs : FS) (l : List String) (d : FPath) (h : l.Nodup) :
    (addStep fs l d).Nodup := by
  unfold addStep
  split
  · by_cases hin : render d ∈ l
    · rw [if_pos hin]; exact h
    · rw [if_neg hin]
      simp [List.nodup_append, h, hin]
  · exact h

lemma nodup_addFold (fs : FS) :
    ∀ (ds : List FPath) (l : List String), l.Nodup → (ds.foldl (addStep fs) l).Nodup := by
  intro ds
  induction ds with
  | nil => intro l h; simpa using h
  | cons d ds ih => intro l h; exact ih _ (nodup_addStep fs l d h)

lemma nodup_addToPath (fs : FS) (l : List String) (ds : List FPath) (b : Bool) (h : l.Nodup) :
    (addToPath fs l ds b).Nodup := by
  unfold addToPath
  split <;> exact nodup_addFold fs _ l h

lemma mem_repoStep_left (res : List FPath) (m x : FPath) (h : x ∈ res) : x ∈ repoStep res m := by
  unfold repoStep
  split
  · exact h
  · exact List.mem_append_left _ h

lemma mem_repoStep_self (res : List FPath) (m : FPath) : parentDir (parentDir m) ∈ repoStep res m := by
  unfold repoStep
  by_cases hin : parentDir (parentDir m) ∈ res
  · rw [if_pos hin]; exact hin
  · rw [if_neg hin]; exact List.mem_append_right _ (List.mem_singleton.mpr rfl)

lemma mem_repoFold_left (x : FPath) :
    ∀ (ms : List FPath) (res : List FPath), x ∈ res → x ∈ ms.foldl repoStep res := by
  intro ms
  induction ms with
  | nil => intro res h; simpa using h
  | cons m ms ih =>
    intro res h
    rw [List.foldl_cons]
    exact ih _ (mem_repoStep_left res m x h)

lemma mem_repoFold_of (m : FPath) :
    ∀ (ms : List FPath) (res : List FPath), m ∈ ms →
      parentDir (parentDir m) ∈ ms.foldl repoStep res := by
  intro ms
  induction ms with
  | nil => intro res h; cases h
  | cons a as ih =>
    intro res h
    rw [List.foldl_cons]
    rcases List.mem_cons.mp h with h1 | h2
    · subst h1
      exact mem_repoFold_left _ as _ (mem_repoStep_self res m)
    · exact ih _ h2

lemma mem_collectFold_left (fs : FS) (x : FPath) :
    ∀ (ps : List FPath) (res : List FPath), x ∈ res → x ∈ ps.foldl (collectStep fs) res := by
  intro ps
  induction ps with
  | nil => intro res h; simpa using h
  | cons p ps ih =>
    intro res h
    rw [List.foldl_cons]
    apply ih
    unfold collectStep
    split
    · exact mem_repoFold_left x _ res h
    · exact h

lemma mem_collectRepos (fs : FS) (p m : FPath) (ps : List FPath)
    (hp : p ∈ ps) (hdir : isDir fs p = true) (hm : m ∈ manifestsUnder fs p) :
    parentDir (parentDir m) ∈ collectRepos fs ps := by
  unfold collectRepos
  have aux : ∀ (qs : List FPath) (res : List FPath), p ∈ qs →
      parentDir (parentDir m) ∈ qs.foldl (collectStep fs) res := by
    intro qs
    induction qs with
    | nil => intro res h; cases h
    | cons q rest ih =>
      intro res h
      rw [List.foldl_cons]
      rcases List.mem_cons.mp h with h1 | h2
      · subst h1
        apply mem_collectFold_left
        unfold collectStep
        rw [if_pos hdir]
        exact mem_repoFold_of m _ res ((mem_sortBy pathLe m _).mpr hm)
      · exact ih _ h2
  exact aux ps [] hp

/-- C1: on a root with the `.trobz` marker, an `addons` folder holding the
single repository `custom-repo`, a `project` folder, and both
`odoo/addons` and `odoo/odoo/addons` (the repository's Trobz fixture, in
which `custom-repo` and `project` each hold a module), `get_addons_path`
with no overrides returns exactly `<root>/odoo/addons`,
`<root>/odoo/odoo/addons`, `<root>/addons/custom-repo`, `<root>/project`,
in that order. -/
theorem c1_trobz_scenario :
    getAddonsPath fsTrobz ["r"] [] none =
      Except.ok "/r/odoo/addons,/r/odoo/odoo/addons,/r/addons/custom-repo,/r/project" := rfl

/-- C10: a directory supplied in the addons_dir override list that itself
directly contains `__manifest__.py` contributes its parent — a path
outside the supplied directory — to the output, not the supplied
directory: processing `/root/mod` emits exactly `/root`. -/
theorem c10_module_root_override_emits_parent :
    getAddonsPathLists fsModuleRoot ["root"] [["root", "mod"]] none =
      Except.ok ([], ["/root"]) := rfl

/-- C2 counterexample: with `odoo_dir = /x` and `addons_dir = [/x]` over
`fsOverlap`, `/x/addons` enters both the core-framework category and the
addon-repository category, so the flattened result contains it twice —
deduplication is not global across categories. -/
theorem c2_counterexample :
    getAddonsPathLists fsOverlap ["cb"] [["x"]] (some ["x"]) =
        Except.ok (["/x/addons"], ["/x/addons"])
      ∧ ¬ ((["/x/addons"] ++ ["/x/addons"] : List String).Nodup) :=
  ⟨rfl, by decide⟩

/-- C3 counterexample: `fsBothB_C` satisfies both the Doodba (Convention
B) and Camptocamp (Convention C) fingerprints; the source chain answers
Camptocamp, while the same detectors chained in the spec's A, B, C, D
order would answer Doodba — so the code does not try the conventions in
the spec's order. -/
theorem c3_counterexample :
    (detectChain fsBothB_C ["r"]).map (fun o => o.map (fun x => x.fst)) =
        Except.ok (some "Camptocamp")
      ∧ (detectSpecOrder fsBothB_C ["r"]).map (fun o => o.map (fun x => x.fst)) =
        Except.ok (some "Doodba") :=
  ⟨rfl, rfl⟩

/-- C4: removing the (non-essential) `addons` folder from the Trobz
fixture makes detection raise FileNotFoundError — `TrobzDetector.detect`
iterates `(codebase / "addons").iterdir()` without an existence check —
whereas the same tree with an empty `addons` folder resolves cleanly to
the two surviving core paths.  The claim (missing directories are
silently dropped) matches the code's own guarding everywhere else and is
taken as the intent; this unguarded `iterdir` is the code bug. -/
theorem c4_missing_addons_crashes :
    getAddonsPathLists fsTrobzNoAddons ["r"] [] none = Except.error "FileNotFoundError"
      ∧ getAddonsPathLists fsTrobzEmptyAddons ["r"] [] none =
        Except.ok (["/r/odoo/addons", "/r/odoo/odoo/addons"], []) :=
  ⟨rfl, rfl⟩

/-- C5 counterexample: when the `.copier-answers.yml` fingerprint file
exists but reading it fails with a permission error, `DoodbaDetector`
propagates the failure out of `detect` (its `open()` call sits outside
the `try` that only catches YAML errors) instead of declining. -/
theorem c5_counterexample :
    detectChain fsCopierUnreadable ["r"] = Except.error "PermissionError" := rfl

/-- C6 counterexample: on an empty root with no overrides,
`get_addons_path` does not yield an empty ResolvedPathSet — the core
itself raises `typer.Exit(1)` from `_detect_codebase_layout`. -/
theorem c6_counterexample :
    getAddonsPathLists fsEmptyRoot ["r"] [] none = Except.error "Exit(1)"
      ∧ getAddonsPathLists fsEmptyRoot ["r"] [] none ≠ Except.ok ([], []) :=
  ⟨rfl, fun h => Except.noConfusion h⟩

/-- C7 counterexample: on a Trobz tree with the explicit core override
`/ext`, the core category is not just the override's surviving subpath
`/ext/addons`: the detected descriptor's coreDirs `/r/odoo/addons` and
`/r/odoo/odoo/addons` are appended as well. -/
theorem c7_counterexample :
    getAddonsPathLists fsTrobzPlusExt ["r"] [] (some ["ext"]) =
      Except.ok (["/ext/addons", "/r/odoo/addons", "/r/odoo/odoo/addons"], []) := rfl

/-- C8 counterexample: expanding the override source directory `/a`, the
manifest at `/a/r/setup/mod/__manifest__.py` lies inside a reserved
`setup` packaging subfolder, yet it is not skipped: it contributes its
grandparent `/a/r/setup` to the output. -/
theorem c8_counterexample :
    getAddonsPathLists fsSetupOnly ["a"] [["a"]] none = Except.ok ([], ["/a/r/setup"]) := rfl

lemma processPaths_nodup (fs : FS) (d : Detected) (addonsDir : List FPath) (odooDir : Option FPath) :
    (processPaths fs d addonsDir odooDir).1.Nodup ∧ (processPaths fs d addonsDir odooDir).2.Nodup := by
  unfold processPaths
  dsimp only
  constructor
  · have hbase : (match odooDir with
        | some od => addToPath fs [] [od ++ ["addons"], od ++ ["odoo", "addons"]] false
        | none => ([] : List String)).Nodup := by
      cases odooDir with
      | some od => exact nodup_addToPath fs [] _ false List.nodup_nil
      | none => exact List.nodup_nil
    split
    · exact hbase
    · exact nodup_addToPath fs _ _ false hbase
  · exact nodup_addToPath fs [] _ _ List.nodup_nil

/-- C2 (amended): every successfully returned result of get_addons_path is
duplicate-free within each category (core-framework list and
addon-repository list), for every root and every combination of overrides;
the counterexample shows the dedup is not global across the two. -/
theorem c2_per_category_nodup (fs : FS) (cb : FPath) (addonsDir : List FPath)
    (odooDir : Option FPath) (r : List String × List String)
    (h : getAddonsPathLists fs cb addonsDir odooDir = Except.ok r) :
    r.1.Nodup ∧ r.2.Nodup := by
  unfold getAddonsPathLists at h
  split at h
  · split at h
    · exact Except.noConfusion h
    · injection h with h'
      exact h' ▸ processPaths_nodup fs _ addonsDir odooDir
  · injection h with h'
    exact h' ▸ processPaths_nodup fs _ addonsDir odooDir

/-- C2 witness: the per-category Nodup theorem applied at a concrete
one-repository tree with an addons_dir override. -/
theorem c2_amended_witness :
    ((([] : List String), (["/a"] : List String)).1.Nodup ∧
      (([] : List String), (["/a"] : List String)).2.Nodup) :=
  c2_per_category_nodup fsOneRepo ["cb"] [["a"]] none (([], ["/a"])) rfl

/-- C5 (amended): for the C2C detector, a read failure on the located
Dockerfile fingerprint makes the detector decline and hand over to the
next detector in the chain; the failure is not propagated.  (The
counterexample shows the Doodba detector, by contrast, propagates a
permission error on its answers file.) -/
theorem c5_c2c_read_failure_declines (fs : FS) (cb df : FPath) (e : String)
    (next : FS → FPath → Except String DetectResult)
    (h1 : findDockerFile fs cb = some df) (h2 : readFile fs df = Except.error e) :
    c2cDetect next fs cb = next fs cb := by
  unfold c2cDetect
  rw [h1]
  dsimp only
  have hb : isC2cDockerfile fs df = false := by
    unfold isC2cDockerfile
    rw [h2]
  rw [hb]
  rfl

/-- C5 witness: the C2C read-failure theorem applied at a concrete root
whose Dockerfile exists but is unreadable. -/
theorem c5_witness :
    findDockerFile fsDockerUnreadable ["r"] = some ["r", "Dockerfile"]
      ∧ readFile fsDockerUnreadable ["r", "Dockerfile"] = Except.error "PermissionError"
      ∧ c2cDetect baseNext fsDockerUnreadable ["r"] = baseNext fsDockerUnreadable ["r"] :=
  ⟨rfl, rfl, c5_c2c_read_failure_declines fsDockerUnreadable ["r"] ["r", "Dockerfile"]
      "PermissionError" baseNext rfl rfl⟩

/-- C6 (amended): whenever the whole detector chain declines, calling
get_addons_path with no overrides does not return an empty ResolvedPathSet:
the core itself raises typer.Exit(1). -/
theorem c6_no_layout_exits (fs : FS) (cb : FPath) (h : detectChain fs cb = Except.ok none) :
    getAddonsPathLists fs cb [] none = Except.error "Exit(1)" := by
  unfold getAddonsPathLists detectCodebaseLayout
  rw [h]
  rfl

/-- C6 witness: the no-layout theorem applied at the concrete empty root
(where the chain demonstrably declines). -/
theorem c6_witness :
    detectChain fsEmptyRoot ["r"] = Except.ok none
      ∧ getAddonsPathLists fsEmptyRoot ["r"] [] none = Except.error "Exit(1)" :=
  ⟨rfl, c6_no_layout_exits fsEmptyRoot ["r"] rfl⟩

/-- C7 (amended): supplying an explicit odoo_dir override does not discard
the detected descriptor coreDirs — every existing detected core directory
still appears in the core-framework category of the result (after the
override subpaths, which are emitted first). -/
theorem c7_detected_core_survives_override (fs : FS) (detected : Detected)
    (addonsDir : List FPath) (od p : FPath)
    (hp : p ∈ detected.odoo_dir) (hdir : isDir fs p = true) :
    render p ∈ (processPaths fs detected addonsDir (some od)).1 := by
  unfold processPaths
  dsimp only
  have hne : detected.odoo_dir.isEmpty = false := by
    cases hd : detected.odoo_dir with
    | nil => rw [hd] at hp; cases hp
    | cons a l => rfl
  rw [if_neg (by rw [hne]; exact Bool.false_ne_true)]
  exact mem_addToPath_of fs p hdir _ _ false hp

/-- C7 witness: the override-survival theorem applied at the concrete
Trobz tree with the external override /ext. -/
theorem c7_witness :
    "/r/odoo/addons" ∈ (processPaths fsTrobzPlusExt detectedTrobzPlusExt [] (some ["ext"])).1 :=
  c7_detected_core_survives_override fsTrobzPlusExt detectedTrobzPlusExt [] ["ext"]
    ["r", "odoo", "addons"] (by decide) rfl

/-- C8 (amended): the resolver expansion of _process_paths skips nothing:
every manifest found by the recursive scan below a processed source
directory contributes its grandparent directory (when that grandparent
exists) to the addon-repository category — including manifests inside
reserved setup packaging subfolders and manifests nested below other
module roots. -/
theorem c8_every_manifest_contributes (fs : FS) (detected : Detected) (addonsDir : List FPath)
    (odooDir : Option FPath) (p m : FPath)
    (hp : p ∈ addonsDir ++ detected.addons_dirs ++ detected.addons_dir)
    (hdir : isDir fs p = true) (hm : m ∈ manifestsUnder fs p)
    (hrepo : isDir fs (parentDir (parentDir m)) = true) :
    render (parentDir (parentDir m)) ∈ (processPaths fs detected addonsDir odooDir).2 := by
  unfold processPaths
  dsimp only
  exact mem_addToPath_of fs _ hrepo [] _ addonsDir.isEmpty
    (mem_collectRepos fs p m _ hp hdir hm)

/-- C8 witness: the contribution theorem applied at the concrete tree
whose only manifest lies inside a setup packaging subfolder. -/
theorem c8_witness :
    "/a/r/setup" ∈ (processPaths fsSetupOnly {} [["a"]] none).2 :=
  c8_every_manifest_contributes fsSetupOnly {} [["a"]] none ["a"]
    ["a", "r", "setup", "mod", "__manifest__.py"] (by decide) rfl (by decide) rfl

/-- C9: with a non-empty addons_dir override the detector chain is never
invoked: the result equals processing with an empty detection dict, is
independent of the codebase root, and the core-framework category is empty
unless odoo_dir is also supplied. -/
theorem c9_override_skips_detection (fs : FS) (cb cb2 : FPath) (addonsDir : List FPath)
    (odooDir : Option FPath) (h : addonsDir ≠ []) :
    getAddonsPathLists fs cb addonsDir odooDir = Except.ok (processPaths fs {} addonsDir odooDir)
      ∧ getAddonsPathLists fs cb addonsDir odooDir = getAddonsPathLists fs cb2 addonsDir odooDir
      ∧ (odooDir = none → (processPaths fs {} addonsDir odooDir).1 = []) := by
  have hne : addonsDir.isEmpty = false := by
    cases addonsDir with
    | nil => exact absurd rfl h
    | cons a l => rfl
  have hni : ¬ (addonsDir.isEmpty = true) := by rw [hne]; exact Bool.false_ne_true
  refine ⟨?_, ?_, ?_⟩
  · unfold getAddonsPathLists
    rw [if_neg hni]
  · unfold getAddonsPathLists
    rw [if_neg hni, if_neg hni]
  · intro ho
    subst ho
    rfl

/-- C9 witness: the detection-skipping theorem applied at a root on which
detection would raise (the Trobz tree without its addons folder) — the
override makes the call succeed regardless. -/
theorem c9_witness :
    (getAddonsPathLists fsTrobzNoAddons ["r"] [["r", "project"]] none =
        Except.ok (processPaths fsTrobzNoAddons {} [["r", "project"]] none))
      ∧ (getAddonsPathLists fsTrobzNoAddons ["r"] [["r", "project"]] none =
        getAddonsPathLists fsTrobzNoAddons ["zzz"] [["r", "project"]] none)
      ∧ ((none : Option FPath) = none →
        (processPaths fsTrobzNoAddons {} [["r", "project"]] none).1 = []) :=
  c9_override_skips_detection fsTrobzNoAddons ["r"] ["zzz"] [["r", "project"]] none (by decide)

lemma runDetectors_cons (d : Detector) (ds : List Detector) (fs : FS) (cb : FPath) :
    runDetectors (d :: ds) fs cb = peel (d baseNext fs cb) (runDetectors ds) fs cb := by
  unfold runDetectors peel
  cases d baseNext fs cb with
  | error e => rfl
  | ok o =>
    cases o with
    | none => rfl
    | some r => rfl

lemma trobz_peel (next : FS → FPath → Except String DetectResult) (fs : FS) (cb : FPath) :
    trobzDetect next fs cb = peel (trobzDetect baseNext fs cb) next fs cb := by
  unfold trobzDetect peel baseNext
  by_cases h : isDir fs (cb ++ [".trobz"]) = true
  · simp only [if_pos h]
    cases iterdirDirs fs (cb ++ ["addons"]) with
    | error e => rfl
    | ok items => rfl
  · simp only [if_neg h]

lemma doodba_peel (next : FS → FPath → Except String DetectResult) (fs : FS) (cb : FPath) :
    doodbaDetect next fs cb = peel (doodbaDetect baseNext fs cb) next fs cb := by
  unfold doodbaDetect peel baseNext
  by_cases h1 : isFile fs (cb ++ [".copier-answers.yml"]) = true
  · simp only [if_pos h1]
    cases readFile fs (cb ++ [".copier-answers.yml"]) with
    | error e => rfl
    | ok content =>
      dsimp only
      cases yamlSrcPath content with
      | error u => rfl
      | ok srcPath =>
        dsimp only
        by_cases h2 : strContains srcPath "doodba" = true
        · simp only [if_pos h2]
          by_cases h3 : isDir fs (cb ++ ["odoo", "custom", "src"]) = true
          · simp only [if_pos h3]
          · simp only [if_neg h3]
        · simp only [if_neg h2]
  · simp only [if_neg h1]

lemma c2c_peel (next : FS → FPath → Except String DetectResult) (fs : FS) (cb : FPath) :
    c2cDetect next fs cb = peel (c2cDetect baseNext fs cb) next fs cb := by
  unfold c2cDetect peel baseNext
  cases findDockerFile fs cb with
  | none => rfl
  | some df =>
    dsimp only
    by_cases h1 : isC2cDockerfile fs df = true
    · simp only [if_pos h1]
      by_cases h2 : isDir fs (cb ++ ["odoo", "src"]) = true
      · simp only [if_pos h2]
      · simp only [if_neg h2]
    · simp only [if_neg h1]

lemma odooSh_peel (next : FS → FPath → Except String DetectResult) (fs : FS) (cb : FPath) :
    odooShDetect next fs cb = peel (odooShDetect baseNext fs cb) next fs cb := by
  unfold odooShDetect peel baseNext
  by_cases h : (isDir fs (cb ++ ["enterprise"]) && isDir fs (cb ++ ["odoo"]) &&
      isDir fs (cb ++ ["themes"]) && isDir fs (cb ++ ["user"])) = true
  · simp only [if_pos h]
  · simp only [if_neg h]

lemma generic_peel (next : FS → FPath → Except String DetectResult) (fs : FS) (cb : FPath) :
    genericDetect next fs cb = peel (genericDetect baseNext fs cb) next fs cb := by
  unfold genericDetect peel baseNext
  dsimp only
  by_cases h : ((manifestsUnder fs cb).filter
      (fun f => decide (("setup" ∈ f) = False) &&
        decide (strOccur (render f) "__manifest__.py" ≤ 1))).isEmpty = true
  · simp only [if_pos h]
  · simp only [if_neg h]

/-- C3 (amended): the source's chain of responsibility is exactly
first-match iteration of the standalone detectors in the order Trobz
(Convention A), Camptocamp (Convention C), odoo.sh (Convention D), Doodba
(Convention B), then the generic fallback — so on a root satisfying two
conventions' fingerprints, the earlier convention in *that* order wins. -/
theorem c3_chain_is_priority_order (fs : FS) (cb : FPath) :
    detectChain fs cb =
      runDetectors [trobzDetect, c2cDetect, odooShDetect, doodbaDetect, genericDetect] fs cb := by
  unfold detectChain
  rw [trobz_peel, runDetectors_cons]
  cases trobzDetect baseNext fs cb with
  | error e => rfl
  | ok o =>
    cases o with
    | some r => rfl
    | none =>
      show c2cDetect (odooShDetect (doodbaDetect (genericDetect baseNext))) fs cb =
        runDetectors [c2cDetect, odooShDetect, doodbaDetect, genericDetect] fs cb
      rw [c2c_peel, runDetectors_cons]
      cases c2cDetect baseNext fs cb with
      | error e => rfl
      | ok o =>
        cases o with
        | some r => rfl
        | none =>
          show odooShDetect (doodbaDetect (genericDetect baseNext)) fs cb =
            runDetectors [odooShDetect, doodbaDetect, genericDetect] fs cb
          rw [odooSh_peel, runDetectors_cons]
          cases odooShDetect baseNext fs cb with
          | error e => rfl
          | ok o =>
            cases o with
            | some r => rfl
            | none =>
              show doodbaDetect (genericDetect baseNext) fs cb =
                runDetectors [doodbaDetect, genericDetect] fs cb
              rw [doodba_peel, runDetectors_cons]
              cases doodbaDetect baseNext fs cb with
              | error e => rfl
              | ok o =>
                cases o with
                | some r => rfl
                | none =>
                  show genericDetect baseNext fs cb = runDetectors [genericDetect] fs cb
                  rw [generic_peel, runDetectors_cons]
                  cases genericDetect baseNext fs cb with
                  | error e => rfl
                  | ok o =>
                    cases o with
                    | some r => rfl
                    | none => rfl
